import Mathlib

/-!
Verification of the third-party identity trust workflow of the
vibe-coding-community repository (src/src/auth/*, src/src/users/router.py),
as a shallow embedding in Lean 4.

Python dicts are modelled as insertion-ordered association lists
(`Dict`), mutating service functions as explicit state-passing functions
on a `MockState` record that mirrors the module-level MOCK_* dictionaries
of src/core/mock_data.py (the demo-mode storage; the Supabase branches
delegate to an external service and, for the WeChat auth services, return
"not implemented" errors).  Network calls are modelled by passing the
reply of the remote endpoint as an explicit argument and recording each
call in a trace list, so that "no network call is made" is the statement
that the trace is empty.
-/

namespace VibeAuth

/-- Python dict with string keys: insertion-ordered association list.
`d[k] = v` replaces in place or appends; `.pop(k, None)` removes the
entry; `.values()` lists values in insertion order. -/
abbrev Dict (α : Type) : Type := List (String × α)

def Dict.get? {α : Type} (d : Dict α) (k : String) : Option α :=
  (List.find? (fun kv => kv.1 == k) d).map (fun kv => kv.2)

def Dict.set {α : Type} : Dict α → String → α → Dict α
  | [], k, v => [(k, v)]
  | kv :: rest, k, v =>
    if kv.1 == k then (k, v) :: rest else kv :: Dict.set rest k v

def Dict.erase {α : Type} : Dict α → String → Dict α
  | [], _ => []
  | kv :: rest, k => if kv.1 == k then rest else kv :: Dict.erase rest k

/-- Model of `d.pop(k, None)`: the removed value (if any) and the remaining dict. -/
def Dict.pop {α : Type} (d : Dict α) (k : String) : Option α × Dict α :=
  (d.get? k, d.erase k)

def Dict.values {α : Type} (d : Dict α) : List α :=
  d.map (fun kv => kv.2)

/-! ## National-ID format validator (src/auth/alipay_router.py, validate_id_card)

The source checks `re.match` of
`^[1-9]\d{5}(19|20)\d{2}(0[1-9]|1[0-2])(0[1-9]|[12]\d|3[01])\d{3}[\dXx]$`.
A regex character class is a codepoint test; we render each class as a
test on `Char.toNat` (`'0'` = 48 … `'9'` = 57, `'1'` = 49, `'2'` = 50,
`'3'` = 51, `'X'` = 88, `'x'` = 120).  On a str pattern Python's `\d`
matches any Unicode decimal digit (general category Nd) — not only
ASCII — so e.g. the fullwidth digit ６ (codepoint 65302) and the
Arabic-Indic digit ٢ (codepoint 1634) match `\d`, while the explicit
ranges such as `[1-9]` or `0[1-9]` stay ASCII.  The Unicode database
lists category Nd as runs of ten consecutive codepoints carrying digit
values 0-9; `ndDigitRunStarts` is the first codepoint of each run.
Python's `$` (without re.MULTILINE) also matches just before a single
trailing newline (codepoint 10), which `validate_id_card` reproduces. -/

/-- Decimal value of an ASCII digit character. -/
def dval (c : Char) : Nat := c.toNat - 48

/-- Start of every run of ten decimal digits of general category Nd in
the Unicode character database (the table Python's re module consults
for `\d` on str patterns). -/
def ndDigitRunStarts : List Nat :=
  [48, 1632, 1776, 1984, 2406, 2534, 2662, 2790, 2918, 3046, 3174, 3302,
   3430, 3558, 3664, 3792, 3872, 4160, 4240, 6112, 6160, 6470, 6608, 6784,
   6800, 6992, 7088, 7232, 7248, 42528, 43216, 43264, 43472, 43504, 43600,
   44016, 65296, 66720, 68912, 69734, 69872, 69942, 70096, 70384, 70736,
   70864, 71248, 71360, 71472, 71904, 72016, 72784, 73040, 73120, 92768,
   92864, 93008, 120782, 120792, 120802, 120812, 120822, 123200, 123632,
   125264, 130032]

/-- Regex class `\d` as Python matches it on str patterns: any Unicode
decimal digit (category Nd). -/
def isDigitCh (c : Char) : Bool :=
  ndDigitRunStarts.any (fun b => decide (b ≤ c.toNat ∧ c.toNat ≤ b + 9))

/-- An ASCII digit 0-9 (codepoints 48-57): the alphabet of the pattern's
explicit ranges such as `[1-9]`, `0[1-9]` or `[12]`. -/
def isAsciiDigit (c : Char) : Bool := decide (48 ≤ c.toNat ∧ c.toNat ≤ 57)

lemma isDigitCh_of_bounds (c : Char) (h1 : 48 ≤ c.toNat)
    (h2 : c.toNat ≤ 57) : isDigitCh c = true := by
  simp only [isDigitCh, List.any_eq_true]
  exact ⟨48, by decide, decide_eq_true (by omega)⟩

/-- Regex class `[1-9]`. -/
def cls_nonzero_digit (c : Char) : Bool := decide (49 ≤ c.toNat ∧ c.toNat ≤ 57)

/-- Regex group `(19|20)\d{2}`. -/
def cls_year (a b c d : Char) : Bool :=
  (decide (a.toNat = 49 ∧ b.toNat = 57) || decide (a.toNat = 50 ∧ b.toNat = 48)) &&
  isDigitCh c && isDigitCh d

/-- Regex group `(0[1-9]|1[0-2])`. -/
def cls_month (a b : Char) : Bool :=
  (decide (a.toNat = 48) && decide (49 ≤ b.toNat ∧ b.toNat ≤ 57)) ||
  (decide (a.toNat = 49) && decide (48 ≤ b.toNat ∧ b.toNat ≤ 50))

/-- Regex group `(0[1-9]|[12]\d|3[01])`. -/
def cls_day (a b : Char) : Bool :=
  (decide (a.toNat = 48) && decide (49 ≤ b.toNat ∧ b.toNat ≤ 57)) ||
  (decide (a.toNat = 49 ∨ a.toNat = 50) && isDigitCh b) ||
  (decide (a.toNat = 51) && decide (b.toNat = 48 ∨ b.toNat = 49))

/-- Regex class `[\dXx]`. -/
def cls_last (c : Char) : Bool :=
  isDigitCh c || decide (c.toNat = 88) || decide (c.toNat = 120)

/-- The anchored 18-character pattern body of validate_id_card's regex. -/
def idPattern (cs : List Char) : Bool :=
  (cs.length == 18) &&
  cls_nonzero_digit (cs.getD 0 ' ') &&
  isDigitCh (cs.getD 1 ' ') && isDigitCh (cs.getD 2 ' ') &&
  isDigitCh (cs.getD 3 ' ') && isDigitCh (cs.getD 4 ' ') &&
  isDigitCh (cs.getD 5 ' ') &&
  cls_year (cs.getD 6 ' ') (cs.getD 7 ' ') (cs.getD 8 ' ') (cs.getD 9 ' ') &&
  cls_month (cs.getD 10 ' ') (cs.getD 11 ' ') &&
  cls_day (cs.getD 12 ' ') (cs.getD 13 ' ') &&
  isDigitCh (cs.getD 14 ' ') && isDigitCh (cs.getD 15 ' ') &&
  isDigitCh (cs.getD 16 ' ') &&
  cls_last (cs.getD 17 ' ')

/-- src/auth/alipay_router.py, validate_id_card: `re.match(pattern, id_card)`
with the pattern anchored by `^ … $`; `$` also matches before a single
trailing newline. -/
def validate_id_card (s : String) : Bool :=
  idPattern s.data ||
  ((s.data.getLast? == some (Char.ofNat 10)) && idPattern s.data.dropLast)

/-! Spec-side definitions for claim C4.  The original claim's words:
"18 characters: 6-digit region code [with nonzero first digit], 4-digit
year in [1900,2099] expressed as 19xx/20xx, valid month 01-12, valid day
01-31 for that month/year, 3 digits, final character digit or 'X'/'x'";
the amended versions state the alphabet precisely (explicit ranges are
ASCII, `\d` positions are any Unicode decimal digit). -/

/-- Spec words: nonzero leading character of the region code, an ASCII
digit 1-9. -/
def spec_nonzero (c : Char) : Bool := isAsciiDigit c && decide (1 ≤ dval c)

/-- Amended year condition: an ASCII two-digit prefix whose value is 19
or 20 (so the year lies in [1900,2099]) followed by two decimal
digits. -/
def spec_year (a b c d : Char) : Bool :=
  (isAsciiDigit a && isAsciiDigit b &&
    decide (10 * dval a + dval b = 19 ∨ 10 * dval a + dval b = 20)) &&
  isDigitCh c && isDigitCh d

/-- Spec words: a valid month 01-12, both characters ASCII digits. -/
def spec_month (a b : Char) : Bool :=
  isAsciiDigit a && isAsciiDigit b &&
  decide (1 ≤ 10 * dval a + dval b ∧ 10 * dval a + dval b ≤ 12)

/-- Amended day condition: two ASCII digits whose value lies in 01-31,
or an ASCII '1' or '2' followed by any Unicode decimal digit (the
`[12]\d` alternative) — in every case independent of month and year. -/
def spec_day_01_31 (a b : Char) : Bool :=
  (isAsciiDigit a && isAsciiDigit b &&
    decide (1 ≤ 10 * dval a + dval b ∧ 10 * dval a + dval b ≤ 31)) ||
  (decide (a.toNat = 49 ∨ a.toNat = 50) && isDigitCh b)

/-- Spec words: final character a decimal digit or 'X'/'x'. -/
def spec_last (c : Char) : Bool :=
  isDigitCh c || decide (c.toNat = 88 ∨ c.toNat = 120)

/-- Gregorian leap year. -/
def leapYear (y : Nat) : Bool :=
  decide ((y % 4 = 0 ∧ y % 100 ≠ 0) ∨ y % 400 = 0)

/-- Number of days of month `m` in year `y`. -/
def daysInMonth (y m : Nat) : Nat :=
  if m = 2 then (if leapYear y then 29 else 28)
  else if m = 4 ∨ m = 6 ∨ m = 9 ∨ m = 11 then 30
  else 31

/-- The year encoded at positions 6-9 of an ID string. -/
def idYear (cs : List Char) : Nat :=
  1000 * dval (cs.getD 6 ' ') + 100 * dval (cs.getD 7 ' ') +
  10 * dval (cs.getD 8 ' ') + dval (cs.getD 9 ' ')

/-- The month encoded at positions 10-11. -/
def idMonth (cs : List Char) : Nat :=
  10 * dval (cs.getD 10 ' ') + dval (cs.getD 11 ' ')

/-- The day encoded at positions 12-13. -/
def idDay (cs : List Char) : Nat :=
  10 * dval (cs.getD 12 ' ') + dval (cs.getD 13 ' ')

/-- Claim C4 as stated (spec words): 18 characters, nonzero-leading
6-digit region code, year 19xx/20xx in [1900,2099], month 01-12, a day
01-31 valid *for that month and year*, 3 digits, final digit or X/x. -/
def validIdSpec (s : String) : Bool :=
  let cs := s.data
  (cs.length == 18) &&
  spec_nonzero (cs.getD 0 ' ') &&
  isDigitCh (cs.getD 1 ' ') && isDigitCh (cs.getD 2 ' ') &&
  isDigitCh (cs.getD 3 ' ') && isDigitCh (cs.getD 4 ' ') &&
  isDigitCh (cs.getD 5 ' ') &&
  spec_year (cs.getD 6 ' ') (cs.getD 7 ' ') (cs.getD 8 ' ') (cs.getD 9 ' ') &&
  spec_month (cs.getD 10 ' ') (cs.getD 11 ' ') &&
  (isDigitCh (cs.getD 12 ' ') && isDigitCh (cs.getD 13 ' ') &&
    decide (1 ≤ idDay cs ∧ idDay cs ≤ daysInMonth (idYear cs) (idMonth cs))) &&
  isDigitCh (cs.getD 14 ' ') && isDigitCh (cs.getD 15 ' ') &&
  isDigitCh (cs.getD 16 ' ') &&
  spec_last (cs.getD 17 ' ')

/-- The amended shape: as the claim, but with the day checked only
against its character class (not against month or year) and with the
pattern's true alphabet — explicit ranges are ASCII while every `\d`
position admits any Unicode decimal digit. -/
def idAmendedShape (cs : List Char) : Bool :=
  (cs.length == 18) &&
  spec_nonzero (cs.getD 0 ' ') &&
  isDigitCh (cs.getD 1 ' ') && isDigitCh (cs.getD 2 ' ') &&
  isDigitCh (cs.getD 3 ' ') && isDigitCh (cs.getD 4 ' ') &&
  isDigitCh (cs.getD 5 ' ') &&
  spec_year (cs.getD 6 ' ') (cs.getD 7 ' ') (cs.getD 8 ' ') (cs.getD 9 ' ') &&
  spec_month (cs.getD 10 ' ') (cs.getD 11 ' ') &&
  spec_day_01_31 (cs.getD 12 ' ') (cs.getD 13 ' ') &&
  isDigitCh (cs.getD 14 ' ') && isDigitCh (cs.getD 15 ' ') &&
  isDigitCh (cs.getD 16 ' ') &&
  spec_last (cs.getD 17 ' ')

/-- Amended claim C4 as a predicate: the 18-character amended shape,
optionally followed by a single trailing newline. -/
def validIdAmended (s : String) : Bool :=
  idAmendedShape s.data ||
  ((s.data.getLast? == some (Char.ofNat 10)) && idAmendedShape s.data.dropLast)

lemma cls_nonzero_digit_eq (c : Char) : cls_nonzero_digit c = spec_nonzero c := by
  rw [Bool.eq_iff_iff]
  simp only [cls_nonzero_digit, spec_nonzero, isAsciiDigit, dval,
    Bool.and_eq_true, decide_eq_true_eq]
  omega

lemma cls_year_eq (a b c d : Char) : cls_year a b c d = spec_year a b c d := by
  rw [Bool.eq_iff_iff]
  simp only [cls_year, spec_year, isAsciiDigit, dval,
    Bool.and_eq_true, Bool.or_eq_true, decide_eq_true_eq]
  constructor <;> rintro ⟨⟨h1, hX⟩, hY⟩ <;> exact ⟨⟨by omega, hX⟩, hY⟩

lemma cls_month_eq (a b : Char) : cls_month a b = spec_month a b := by
  rw [Bool.eq_iff_iff]
  simp only [cls_month, spec_month, isAsciiDigit, dval,
    Bool.and_eq_true, Bool.or_eq_true, decide_eq_true_eq]
  omega

lemma cls_day_eq (a b : Char) : cls_day a b = spec_day_01_31 a b := by
  rw [Bool.eq_iff_iff]
  simp only [cls_day, spec_day_01_31, isAsciiDigit, dval,
    Bool.and_eq_true, Bool.or_eq_true, decide_eq_true_eq]
  constructor
  · rintro ((⟨h1, h2⟩ | ⟨h1, hX⟩) | ⟨h1, h2⟩)
    · exact Or.inl ⟨⟨by omega, by omega⟩, by omega⟩
    · exact Or.inr ⟨h1, hX⟩
    · exact Or.inl ⟨⟨by omega, by omega⟩, by omega⟩
  · rintro (⟨⟨hDa, hDb⟩, hV⟩ | ⟨h1, hX⟩)
    · by_cases h12 : a.toNat = 49 ∨ a.toNat = 50
      · exact Or.inl (Or.inr ⟨h12,
          isDigitCh_of_bounds b (by omega) (by omega)⟩)
      · have ha : a.toNat = 48 ∨ a.toNat = 51 := by omega
        rcases ha with ha | ha
        · exact Or.inl (Or.inl ⟨ha, by omega⟩)
        · exact Or.inr ⟨ha, by omega⟩
    · exact Or.inl (Or.inr ⟨h1, hX⟩)

lemma cls_last_eq (c : Char) : cls_last c = spec_last c := by
  rw [Bool.eq_iff_iff]
  simp only [cls_last, spec_last,
    Bool.and_eq_true, Bool.or_eq_true, decide_eq_true_eq]
  tauto

lemma idPattern_eq_amended (cs : List Char) : idPattern cs = idAmendedShape cs := by
  simp only [idPattern, idAmendedShape, cls_nonzero_digit_eq, cls_year_eq,
    cls_month_eq, cls_day_eq, cls_last_eq]

/-- C4 (counterexample): the validator accepts "110101199002302316" — day
30 in February 1990, which the claim's "valid day 01-31 for that month
and year" requires it to reject (the spec-words predicate rejects it) —
and also accepts the 19-character string "110101199003072316\n" (a
trailing newline), which the claim's "iff it is 18 characters" excludes. -/
theorem c4_counterexample :
    validate_id_card "110101199002302316" = true ∧
    validIdSpec "110101199002302316" = false ∧
    validate_id_card "110101199003072316\n" = true := by
  refine ⟨by decide, by decide, by decide⟩

/-- C4 (amended): validate_id_card accepts a string iff it consists of
18 characters — an ASCII digit 1-9 and five Unicode decimal digits
(Python's `\d` is the full Nd category) for the region code, a literal
'19' or '20' followed by two decimal digits (so the year reads as a
value in [1900,2099]), an ASCII month 01-12, a day that is either two
ASCII digits with value 01-31 or an ASCII '1'/'2' followed by any
decimal digit (checked only against the character class, not against
the month or year), three decimal digits, and a final decimal digit or
'X'/'x' — optionally followed by a single trailing newline; in
particular "110101199003072316" is valid, "11010119900230XXXX" is
invalid, and "12345" is invalid. -/
theorem c4_validator_amended :
    (∀ s : String, validate_id_card s = validIdAmended s) ∧
    validate_id_card "110101199003072316" = true ∧
    validate_id_card "11010119900230XXXX" = false ∧
    validate_id_card "12345" = false := by
  refine ⟨fun s => ?_, by decide, by decide, by decide⟩
  simp only [validate_id_card, validIdAmended, idPattern_eq_amended]

/-! ## Signature utility (src/auth/alipay_verify.py, AlipaySignature.sign)

The PyCryptodome primitives are parameters of the model: `importKey`
models `RSA.import_key` (`none` = the library raises on a malformed
key), `rsaSha256` models `SHA256.new` + `PKCS1_v1_5.new(key).sign` +
`base64.b64encode` (`none` = the signer raises, e.g. for a key without a
private part).  The source wraps the whole body in `try/except` and
returns the empty string from the `except` branch, so the function never
raises: `Except CryptoError` is the exception channel and every result
is `.ok`. -/

/-- Error taxonomy item from the spec (§4.1/§7). -/
inductive CryptoError
  | malformedKey
deriving DecidableEq, Repr

/-- src/auth/alipay_verify.py, AlipaySignature.sign. -/
def alipay_sign {K : Type} (importKey : String → Option K)
    (rsaSha256 : K → String → Option String)
    (privateKey data : String) : Except CryptoError String :=
  match importKey privateKey with
  | none => Except.ok ""
  | some key =>
    match rsaSha256 key data with
    | none => Except.ok ""
    | some sig => Except.ok sig

/-- Toy key parser for concrete evaluations: exactly one well-formed key. -/
def toyImportKey : String → Option Unit :=
  fun s => if s = "VALID-KEY" then some () else none

/-- Toy signing primitive for concrete evaluations. -/
def toyRsa : Unit → String → Option String :=
  fun _ d => some ("SIG:" ++ d)

/-! ## Parameter canonicalization (src/auth/alipay_verify.py, _sign_params)

`sorted(params.items(), key=lambda x: x[0])` is a stable sort by key,
ascending in the lexicographic string order; `"&".join(f"{k}={v}" for
k, v in sorted_params if v)` then keeps only truthy (non-empty) values.
The signature function applied at the end is a parameter. -/

/-- Ordering of parameter pairs by parameter name. -/
def keyLe (a b : String × String) : Prop := a.1 ≤ b.1

instance : DecidableRel keyLe :=
  fun a b => inferInstanceAs (Decidable (a.1 ≤ b.1))

instance : IsTotal (String × String) keyLe :=
  ⟨fun a b => le_total a.1 b.1⟩

instance : IsTrans (String × String) keyLe :=
  ⟨fun _ _ _ h1 h2 => le_trans h1 h2⟩

/-- Model of `sorted(..., key=lambda x: x[0])`: stable ascending sort by key. -/
def sortParams (params : List (String × String)) : List (String × String) :=
  List.insertionSort keyLe params

/-- The string that `_sign_params` signs: sort, drop falsy values, join
`key=value` with `&`. -/
def sign_params_str (params : List (String × String)) : String :=
  String.intercalate "&"
    (((sortParams params).filter (fun kv => kv.2 != "")).map
      (fun kv => kv.1 ++ "=" ++ kv.2))

/-- src/auth/alipay_verify.py, _build_common_params (the `timestamp` and
the JSON rendering of `biz_content` are inputs). -/
def build_common_params (appId method timestamp bizContent : String) :
    List (String × String) :=
  [("app_id", appId), ("method", method), ("format", "JSON"),
   ("charset", "utf-8"), ("sign_type", "RSA2"), ("timestamp", timestamp),
   ("version", "1.0"), ("biz_content", bizContent)]

/-- initialize_certify, the two lines
`params = _build_common_params(...)`; `params["sign"] = _sign_params(params)`:
the dict posted to the gateway. -/
def initialize_certify_params (sign : String → String)
    (base : List (String × String)) : List (String × String) :=
  Dict.set base "sign" (sign (sign_params_str base))

/-- Claim C6's canonical string, written from the spec's words: "the set
of all non-empty request parameters, sorted lexicographically by
parameter name and joined as key=value pairs with &". -/
def canonical_string_spec (params : List (String × String)) : String :=
  String.intercalate "&"
    ((sortParams (params.filter (fun kv => kv.2 != ""))).map
      (fun kv => kv.1 ++ "=" ++ kv.2))

lemma orderedInsert_eq_cons {α : Type} {r : α → α → Prop} [DecidableRel r]
    (a : α) (l : List α) (h : ∀ b ∈ l, r a b) :
    List.orderedInsert r a l = a :: l := by
  cases l with
  | nil => rfl
  | cons y ys => simp [List.orderedInsert, h y (by simp)]

lemma filter_orderedInsert {α : Type} {r : α → α → Prop} [DecidableRel r]
    [IsTrans α r] (p : α → Bool) (a : α) (l : List α) (hs : l.Sorted r) :
    (List.orderedInsert r a l).filter p =
      if p a then List.orderedInsert r a (l.filter p) else l.filter p := by
  induction l with
  | nil => cases hpa : p a <;> simp [List.orderedInsert, hpa]
  | cons y ys ih =>
    rcases List.sorted_cons.mp hs with ⟨hy, hys⟩
    by_cases hray : r a y
    · cases hpa : p a with
      | true =>
        cases hpy : p y with
        | true => simp [List.orderedInsert, hray, List.filter_cons, hpa, hpy]
        | false =>
          have hall : ∀ b ∈ ys.filter p, r a b := fun b hb =>
            IsTrans.trans a y b hray (hy b (List.mem_of_mem_filter hb))
          simp [List.orderedInsert, hray, List.filter_cons, hpa, hpy,
            orderedInsert_eq_cons a _ hall]
      | false => simp [List.orderedInsert, hray, List.filter_cons, hpa]
    · cases hpa : p a with
      | true =>
        cases hpy : p y with
        | true =>
          simp [List.orderedInsert, hray, List.filter_cons, hpy, hpa,
            ih hys]
        | false =>
          simp [List.orderedInsert, hray, List.filter_cons, hpy, hpa,
            ih hys]
      | false =>
        cases hpy : p y with
        | true =>
          simp [List.orderedInsert, hray, List.filter_cons, hpy, hpa,
            ih hys]
        | false =>
          simp [List.orderedInsert, hray, List.filter_cons, hpy, hpa,
            ih hys]

lemma insertionSort_filter {α : Type} {r : α → α → Prop} [DecidableRel r]
    [IsTotal α r] [IsTrans α r] (p : α → Bool) (l : List α) :
    (List.insertionSort r l).filter p = List.insertionSort r (l.filter p) := by
  induction l with
  | nil => rfl
  | cons a l ih =>
    rw [show List.insertionSort r (a :: l) =
          List.orderedInsert r a (List.insertionSort r l) from rfl,
      filter_orderedInsert p a _ (List.sorted_insertionSort r l),
      List.filter_cons]
    by_cases hpa : p a = true
    · rw [if_pos hpa, if_pos hpa,
        show List.insertionSort r (a :: List.filter p l) =
          List.orderedInsert r a (List.insertionSort r (List.filter p l)) from rfl,
        ih]
    · rw [if_neg hpa, if_neg hpa, ih]

/-- The canonical strings agree: sorting then dropping empty values
equals dropping empty values then sorting (the sort is stable and the
filter does not look at the order). -/
lemma sign_params_str_eq_canonical (params : List (String × String)) :
    sign_params_str params = canonical_string_spec params := by
  unfold sign_params_str canonical_string_spec sortParams
  rw [insertionSort_filter]

/-- C5 (counterexample): on a malformed private key the signer does not
fail with a `CryptoError` — the exception is caught inside the function
and the empty string is returned as an ordinary result. -/
theorem c5_counterexample :
    toyImportKey "BAD-KEY" = none ∧
    alipay_sign toyImportKey toyRsa "BAD-KEY" "app_id=x" = Except.ok "" ∧
    alipay_sign toyImportKey toyRsa "BAD-KEY" "app_id=x" ≠
      Except.error CryptoError.malformedKey := by
  refine ⟨rfl, rfl, fun h => ?_⟩
  simp [alipay_sign, toyImportKey] at h

/-- C5 (amended): `sign` never raises for any key and any input string —
every outcome is an ordinary string result — and when the private key is
malformed it returns the empty string (after logging), rather than
failing with a CryptoError. -/
theorem c5_sign_never_raises {K : Type} (importKey : String → Option K)
    (rsaSha256 : K → String → Option String) (privateKey data : String) :
    (∃ s : String,
      alipay_sign importKey rsaSha256 privateKey data = Except.ok s) ∧
    (importKey privateKey = none →
      alipay_sign importKey rsaSha256 privateKey data = Except.ok "") := by
  constructor
  · cases h : importKey privateKey with
    | none => exact ⟨"", by simp [alipay_sign, h]⟩
    | some key =>
      cases h2 : rsaSha256 key data with
      | none => exact ⟨"", by simp [alipay_sign, h, h2]⟩
      | some sig => exact ⟨sig, by simp [alipay_sign, h, h2]⟩
  · intro h
    simp [alipay_sign, h]

/-- C5 witness: the amended theorem evaluated at the toy primitives and
a concrete malformed key. -/
theorem c5_witness :
    alipay_sign toyImportKey toyRsa "BAD-KEY" "payload" = Except.ok "" :=
  (c5_sign_never_raises toyImportKey toyRsa "BAD-KEY" "payload").2 rfl

/-- C6: for the gateway requests, the string that gets signed is exactly
the non-empty request parameters sorted lexicographically by parameter
name, joined as key=value pairs with '&', and the resulting signature is
attached as an additional 'sign' parameter, which is itself not part of
the signed string (the signed string is computed from the parameter set
before 'sign' is added). -/
theorem c6_canonical_signing (sign : String → String)
    (appId method timestamp bizContent : String) :
    sign_params_str (build_common_params appId method timestamp bizContent) =
      canonical_string_spec (build_common_params appId method timestamp bizContent) ∧
    initialize_certify_params sign (build_common_params appId method timestamp bizContent) =
      build_common_params appId method timestamp bizContent ++
        [("sign", sign (canonical_string_spec
            (build_common_params appId method timestamp bizContent)))] := by
  refine ⟨sign_params_str_eq_canonical _, ?_⟩
  rw [← sign_params_str_eq_canonical]
  rfl

/-! ## Demo-mode data model (src/core/mock_data.py)

The module-level MOCK_* dictionaries, gathered into one state record.
Record fields that no modelled flow ever reads (phone, wechat_id, bio,
and the informational constant fields of a solver profile, two of which
are floats) are omitted; timestamps and generated uuids enter as
explicit arguments. -/

/-- Truthiness of an optional string (Python: `not x` for `x: str | None`). -/
def strFalsy : Option String → Bool
  | none => true
  | some s => s == ""

/-- Python substring test `needle in hay`: prefix test helper. -/
def listStarts : List Char → List Char → Bool
  | [], _ => true
  | _ :: _, [] => false
  | a :: as, b :: bs => a == b && listStarts as bs

/-- Python substring test `needle in hay` on character lists. -/
def listHasSub (needle : List Char) : List Char → Bool
  | [] => listStarts needle []
  | b :: bs => listStarts needle (b :: bs) || listHasSub needle bs

/-- Python substring test `needle in hay` on strings. -/
def strIn (needle hay : String) : Bool := listHasSub needle.data hay.data

/-- The provider_data bag stored with an identity binding. -/
structure ProviderData where
  unionid : Option String := none
  nickname : Option String := none
  avatar_url : Option String := none
  sex : Option Nat := none
deriving DecidableEq, Repr

/-- A row of MOCK_USER_IDENTITIES (user_identities table). -/
structure Identity where
  id : String
  user_id : String
  provider : String
  provider_user_id : String
  provider_data : ProviderData
  created_at : String
  updated_at : String
deriving DecidableEq, Repr

/-- A row of MOCK_USERS (profiles). -/
structure UserRec where
  id : String
  email : Option String
  nickname : String
  user_role : String
  avatar_url : Option String
  real_name : Option String
  id_card_verified : Bool
  password_hash : Option String
  terms_agreed_at : Option String
  created_at : String
deriving DecidableEq, Repr

/-- A row of MOCK_AGREEMENTS. -/
structure Agreement where
  user_id : String
  email : Option String
  agreed_at : String
  agreement_version : String
deriving DecidableEq, Repr

/-- A row of MOCK_SOLVER_PROFILES (informational constant fields omitted). -/
structure SolverProfile where
  id : String
  user_id : String
deriving DecidableEq, Repr

/-- The wechat_user_info dict (fields the flows read; a missing dict key
is `none`). -/
structure WechatUserInfo where
  nickname : Option String := none
  headimgurl : Option String := none
  sex : Option Nat := none
deriving DecidableEq, Repr

/-- An OAUTH_STATES entry (src/auth/wechat_router.py, wechat_authorize). -/
structure StateData where
  action : String
  user_role : Option String
  user_id : Option String
  created_at : String
deriving DecidableEq, Repr

/-- A VERIFY_SESSIONS entry (src/auth/alipay_router.py, submit_verify). -/
structure VerifySession where
  user_id : String
  real_name : String
  order_no : String
deriving DecidableEq, Repr

/-- The MOCK_* dictionaries of src/core/mock_data.py. -/
structure MockState where
  users : Dict UserRec
  identities : Dict Identity
  identityIndex : Dict String
  agreements : Dict Agreement
  solverProfiles : Dict SolverProfile
  sessions : Dict String
deriving DecidableEq, Repr

/-- The session_data payload returned by the WeChat auth services. -/
structure SessionData where
  access_token : String
  refresh_token : String
  user_id : String
  nickname : Option String
  is_new_user : Bool
deriving DecidableEq, Repr

/-- Result triple (success, error_msg, session_data) of the auth services. -/
inductive AuthResult
  | ok (session : SessionData)
  | err (msg : String)
deriving DecidableEq, Repr

/-! ## Identity-binding ledger (src/auth/wechat_oauth.py, UserIdentityService,
demo-mode branches) -/

/-- The index key `f"{provider}:{provider_user_id}"`. -/
def identity_index_key (provider provider_user_id : String) : String :=
  provider ++ ":" ++ provider_user_id

/-- UserIdentityService.create_identity: inserts the row and (over)writes
the index entry; performs no duplicate check. -/
def create_identity (freshId now : String)
    (user_id provider provider_user_id : String)
    (provider_data : ProviderData) (st : MockState) : Identity × MockState :=
  let identity : Identity :=
    { id := freshId, user_id := user_id, provider := provider,
      provider_user_id := provider_user_id, provider_data := provider_data,
      created_at := now, updated_at := now }
  (identity,
   { st with
     identities := st.identities.set freshId identity,
     identityIndex :=
       st.identityIndex.set (identity_index_key provider provider_user_id) freshId })

/-- UserIdentityService.find_by_provider. -/
def find_by_provider (provider provider_user_id : String) (st : MockState) :
    Option Identity :=
  match st.identityIndex.get? (identity_index_key provider provider_user_id) with
  | some identity_id => st.identities.get? identity_id
  | none => none

/-- UserIdentityService.get_user_identities. -/
def get_user_identities (user_id : String) (st : MockState) : List Identity :=
  st.identities.values.filter (fun i => i.user_id == user_id)

/-- UserIdentityService.delete_identity. -/
def delete_identity (identity_id : String) (st : MockState) : Bool × MockState :=
  match st.identities.pop identity_id with
  | (some identity, identities') =>
    (true,
     { st with
       identities := identities',
       identityIndex :=
         (st.identityIndex.pop
           (identity_index_key identity.provider identity.provider_user_id)).2 })
  | (none, _) => (false, st)

/-! ## WeChat auth services (src/auth/wechat_oauth.py, WeChatAuthService,
demo-mode branches) -/

/-- WeChatAuthService.sign_up_with_wechat. -/
def sign_up_with_wechat (freshUserId freshIdentityId freshProfileId now : String)
    (openid : String) (unionid : Option String)
    (wechat_user_info : WechatUserInfo)
    (user_role terms_agreed_at : String) (st : MockState) :
    AuthResult × MockState :=
  match find_by_provider "wechat" openid st with
  | some _ => (.err "该微信账号已注册，请直接登录", st)
  | none =>
    let nickname := wechat_user_info.nickname.getD "微信用户"
    let avatar_url := wechat_user_info.headimgurl
    let new_user : UserRec :=
      { id := freshUserId, email := none, nickname := nickname,
        user_role := user_role, avatar_url := avatar_url, real_name := none,
        id_card_verified := false, password_hash := none,
        terms_agreed_at := some terms_agreed_at, created_at := now }
    let st1 := { st with users := st.users.set freshUserId new_user }
    let st2 := (create_identity freshIdentityId now freshUserId "wechat" openid
      ({ unionid := unionid, nickname := some nickname,
         avatar_url := avatar_url, sex := wechat_user_info.sex }) st1).2
    let st3 :=
      { st2 with agreements := (st2.agreements.set freshUserId
          { user_id := freshUserId, email := none,
            agreed_at := terms_agreed_at, agreement_version := "1.0" }) }
    let st4 :=
      if user_role == "solver" then
        { st3 with solverProfiles := (st3.solverProfiles.set freshUserId
            { id := freshProfileId, user_id := freshUserId }) }
      else st3
    let token := "wechat-token-" ++ freshUserId
    let st5 := { st4 with sessions := st4.sessions.set token freshUserId }
    (.ok { access_token := token, refresh_token := "refresh-" ++ token,
           user_id := freshUserId, nickname := some nickname,
           is_new_user := true }, st5)

/-- WeChatAuthService.sign_in_with_wechat. -/
def sign_in_with_wechat (openid : String) (st : MockState) :
    AuthResult × MockState :=
  match find_by_provider "wechat" openid st with
  | none => (.err "该微信账号尚未注册", st)
  | some identity =>
    match st.users.get? identity.user_id with
    | none => (.err "用户不存在", st)
    | some user =>
      let token := "wechat-token-" ++ identity.user_id
      (.ok { access_token := token, refresh_token := "refresh-" ++ token,
             user_id := identity.user_id, nickname := some user.nickname,
             is_new_user := false },
       { st with sessions := st.sessions.set token identity.user_id })

/-- Result pair (success, error_msg) of bind_wechat_to_user. -/
inductive BindResult
  | ok
  | err (msg : String)
deriving DecidableEq, Repr

/-- WeChatAuthService.bind_wechat_to_user. -/
def bind_wechat_to_user (freshIdentityId now : String)
    (user_id openid : String) (unionid : Option String)
    (wechat_user_info : WechatUserInfo) (st : MockState) :
    BindResult × MockState :=
  match find_by_provider "wechat" openid st with
  | some existing =>
    if existing.user_id == user_id then (.err "该微信账号已绑定到当前账户", st)
    else (.err "该微信账号已被其他账户绑定", st)
  | none =>
    let st1 := (create_identity freshIdentityId now user_id "wechat" openid
      ({ unionid := unionid, nickname := wechat_user_info.nickname,
         avatar_url := wechat_user_info.headimgurl,
         sex := wechat_user_info.sex }) st).2
    (.ok, st1)

/-! ## WeChat OAuth callback (src/auth/wechat_router.py, wechat_callback)

The two network calls of the callback path (code exchange, profile
fetch) are modelled by their replies, passed as arguments, and recorded
in a trace list; an empty trace means no network call was made on that
path.  The redirect responses that set session cookies are the
homeRedirect outcome. -/

/-- A network call made by a handler. -/
inductive NetCall
  | wxAccessToken
  | wxUserInfo
  | alipayInit
  | alipayQuery
deriving DecidableEq, Repr

/-- Reply of WeChatOAuthService.get_access_token (fields the callback
reads; expires_in, refresh_token and scope are never read). -/
inductive ExchangeReply
  | ok (access_token openid : String) (unionid : Option String)
  | err (msg : String)
deriving DecidableEq, Repr

/-- Reply of WeChatOAuthService.get_user_info. -/
inductive ProfileReply
  | ok (info : WechatUserInfo)
  | err (msg : String)
deriving DecidableEq, Repr

/-- The response rendered by wechat_callback. -/
inductive CallbackPage
  | errorPage (title error : String)
  | roleSelectPage (title openid unionid nickname avatar : String)
      (message : Option String)
  | profileBindRedirect
  | homeRedirect (access_token refresh_token : String)
deriving DecidableEq, Repr

/-- Fresh values (uuids and the current timestamp) consumed by the
callback's register/bind paths. -/
structure Fresh where
  userId : String
  identityId : String
  profileId : String
  now : String
deriving DecidableEq, Repr

/-- The user-info value the callback continues with: the fetched profile
on success, else the fallback dict with nickname "微信用户". -/
def profile_or_default (profileReply : ProfileReply) : WechatUserInfo :=
  match profileReply with
  | .ok info => info
  | .err _ => { nickname := some "微信用户" }

/-- The part of wechat_callback that runs after `OAUTH_STATES.pop(state,
None)`: `popped` is the popped entry, `states1` the store with the entry
removed. -/
def wechat_callback_consumed (popped : Option StateData)
    (states1 : Dict StateData)
    (exchangeReply : ExchangeReply) (profileReply : ProfileReply)
    (fresh : Fresh) (st : MockState) :
    CallbackPage × Dict StateData × MockState × List NetCall :=
  match popped with
  | none =>
    (.errorPage "微信登录" "授权已过期，请重试", states1, st, [])
  | some state_data =>
      match exchangeReply with
      | .err msg => (.errorPage "微信登录" msg, states1, st, [.wxAccessToken])
      | .ok _access_token openid unionid =>
        if state_data.action == "bind" then
          if strFalsy state_data.user_id then
            (.errorPage "绑定失败" "绑定操作无效，请重新登录后再试", states1, st, [.wxAccessToken, .wxUserInfo])
          else
            match bind_wechat_to_user fresh.identityId fresh.now
                (state_data.user_id.getD "") openid unionid (profile_or_default profileReply) st with
            | (.err msg, st1) => (.errorPage "绑定失败" msg, states1, st1, [.wxAccessToken, .wxUserInfo])
            | (.ok, st1) => (.profileBindRedirect, states1, st1, [.wxAccessToken, .wxUserInfo])
        else if state_data.action == "register" then
          if strFalsy state_data.user_role then
            (.roleSelectPage "选择身份" openid (unionid.getD "")
              ((profile_or_default profileReply).nickname.getD "微信用户")
              ((profile_or_default profileReply).headimgurl.getD "") none,
             states1, st, [.wxAccessToken, .wxUserInfo])
          else
            match sign_up_with_wechat fresh.userId fresh.identityId
                fresh.profileId fresh.now openid unionid
                (profile_or_default profileReply)
                (state_data.user_role.getD "") fresh.now st with
            | (.ok session_data, st1) =>
              (.homeRedirect session_data.access_token session_data.refresh_token,
               states1, st1, [.wxAccessToken, .wxUserInfo])
            | (.err msg, st1) =>
              if strIn "已注册" msg then
                match sign_in_with_wechat openid st1 with
                | (.ok session_data, st2) =>
                  (.homeRedirect session_data.access_token
                    session_data.refresh_token, states1, st2, [.wxAccessToken, .wxUserInfo])
                | (.err msg2, st2) =>
                  (.errorPage "微信注册" msg2, states1, st2, [.wxAccessToken, .wxUserInfo])
              else (.errorPage "微信注册" msg, states1, st1, [.wxAccessToken, .wxUserInfo])
        else
          match sign_in_with_wechat openid st with
          | (.ok session_data, st1) =>
            (.homeRedirect session_data.access_token session_data.refresh_token,
             states1, st1, [.wxAccessToken, .wxUserInfo])
          | (.err msg, st1) =>
            if strIn "尚未注册" msg then
              (.roleSelectPage "选择身份完成注册" openid (unionid.getD "")
                ((profile_or_default profileReply).nickname.getD "微信用户")
                ((profile_or_default profileReply).headimgurl.getD "")
                (some "该微信账号尚未注册，请选择身份完成注册"), states1, st1,
               [.wxAccessToken, .wxUserInfo])
            else (.errorPage "微信登录" msg, states1, st1, [.wxAccessToken, .wxUserInfo])

/-- src/auth/wechat_router.py, wechat_callback.  Returns the rendered
page, the remaining OAUTH_STATES, the new mock state, and the trace of
network calls made. -/
def wechat_callback (code state error : Option String)
    (oauthStates : Dict StateData)
    (exchangeReply : ExchangeReply) (profileReply : ProfileReply)
    (fresh : Fresh) (st : MockState) :
    CallbackPage × Dict StateData × MockState × List NetCall :=
  if !strFalsy error then
    (.errorPage "微信登录" ("授权失败: " ++ error.getD ""), oauthStates, st, [])
  else if strFalsy code || strFalsy state then
    (.errorPage "微信登录" "授权参数无效", oauthStates, st, [])
  else
    wechat_callback_consumed (oauthStates.pop (state.getD "")).1
      (oauthStates.pop (state.getD "")).2 exchangeReply profileReply fresh st

/-! ## Email bind / WeChat unbind (src/users/router.py, demo-mode branches) -/

/-- The redirect target of the bind/unbind endpoints. -/
inductive ProfileRedirect
  | bindSuccess
  | passwordsNotMatch
  | passwordTooShort
  | emailExists
  | needEmailFirst
  | noWechatBinding
  | unbindSuccess
deriving DecidableEq, Repr

/-- src/users/router.py, bind_email (demo-mode branch; `hashFn` models
hashlib.sha256(password).hexdigest()). -/
def bind_email (freshIdentityId now : String) (hashFn : String → String)
    (user : UserRec) (email password password_confirm : String)
    (st : MockState) : ProfileRedirect × MockState :=
  if password != password_confirm then (.passwordsNotMatch, st)
  else if password.length < 6 then (.passwordTooShort, st)
  else if st.users.values.any
      (fun u => u.email == some email && u.id != user.id) then
    (.emailExists, st)
  else
    let st1 :=
      match st.users.get? user.id with
      | some u =>
        { st with users := (st.users.set user.id
            { u with email := some email,
                     password_hash := some (hashFn password) }) }
      | none => st
    let st2 := (create_identity freshIdentityId now user.id "email" email {} st1).2
    (.bindSuccess, st2)

/-- src/users/router.py, unbind_wechat. -/
def unbind_wechat (user : UserRec) (st : MockState) :
    ProfileRedirect × MockState :=
  if strFalsy user.email then (.needEmailFirst, st)
  else
    match (get_user_identities user.id st).find?
        (fun i => i.provider == "wechat") with
    | none => (.noWechatBinding, st)
    | some wechat_identity =>
      let st1 := (delete_identity wechat_identity.id st).2
      (.unbindSuccess, st1)

/-! ## Identity verification (src/auth/alipay_verify.py UserVerifyService,
src/auth/alipay_router.py submit_verify / verify_callback) -/

/-- Result pair (success, error_msg) of update_verify_status. -/
inductive UpdateResult
  | ok
  | err (msg : String)
deriving DecidableEq, Repr

/-- UserVerifyService.update_verify_status (demo-mode branch; the
save_users() call writes a file and is outside the model). -/
def update_verify_status (user_id real_name : String) (verified : Bool)
    (st : MockState) : UpdateResult × MockState :=
  match st.users.get? user_id with
  | none => (.err "用户不存在", st)
  | some u =>
    (.ok, { st with users := (st.users.set user_id
        { u with real_name := some real_name,
                 id_card_verified := verified }) })

/-- Reply of AlipayVerifyService.initialize_certify. -/
inductive InitReply
  | ok (certify_id : String)
  | err (msg : String)
deriving DecidableEq, Repr

/-- Reply of AlipayVerifyService.query_certify_result (identity_info and
material_info are never read by the router). -/
inductive QueryReply
  | ok (passed : Bool)
  | err (msg : String)
deriving DecidableEq, Repr

/-- The response of submit_verify.  certifyRedirect carries the
certify_id whose signed URL (a pure construction) the 303 points at. -/
inductive SubmitOutcome
  | idCardFormatError
  | nameError
  | autoApproveRedirect
  | autoApproveError (msg : String)
  | initError (msg : String)
  | certifyRedirect (certify_id : String)
deriving DecidableEq, Repr

/-- src/auth/alipay_router.py, submit_verify.  `alipayConfigured` is
bool(settings.ALIPAY_APP_ID); `freshOrderSuffix` is uuid4().hex[:8]. -/
def submit_verify (real_name id_card : String) (user : UserRec)
    (alipayConfigured : Bool) (freshOrderSuffix : String)
    (initReply : InitReply) (verifySessions : Dict VerifySession)
    (st : MockState) :
    SubmitOutcome × Dict VerifySession × MockState × List NetCall :=
  if !validate_id_card id_card then
    (.idCardFormatError, verifySessions, st, [])
  else if real_name == "" || real_name.length < 2 then
    (.nameError, verifySessions, st, [])
  else if !alipayConfigured then
    match update_verify_status user.id real_name true st with
    | (.ok, st1) => (.autoApproveRedirect, verifySessions, st1, [])
    | (.err e, st1) => (.autoApproveError e, verifySessions, st1, [])
  else
    let order_no := "VERIFY_" ++ user.id ++ "_" ++ freshOrderSuffix
    match initReply with
    | .err e => (.initError e, verifySessions, st, [.alipayInit])
    | .ok certify_id =>
      (.certifyRedirect certify_id,
       (verifySessions.set certify_id
         { user_id := user.id, real_name := real_name, order_no := order_no }),
       st, [.alipayInit])

/-- The response of verify_callback. -/
inductive VerifyCbOutcome
  | invalidParamRedirect
  | expiredRedirect
  | mismatchRedirect
  | queryFailedPage (msg : String)
  | notPassedPage
  | updateFailedPage (msg : String)
  | successRedirect
deriving DecidableEq, Repr

/-- src/auth/alipay_router.py, verify_callback. -/
def verify_callback (certify_id : Option String) (user : UserRec)
    (verifySessions : Dict VerifySession) (queryReply : QueryReply)
    (st : MockState) :
    VerifyCbOutcome × Dict VerifySession × MockState × List NetCall :=
  if strFalsy certify_id then
    (.invalidParamRedirect, verifySessions, st, [])
  else
    match verifySessions.pop (certify_id.getD "") with
    | (none, sessions1) => (.expiredRedirect, sessions1, st, [])
    | (some session, sessions1) =>
      if session.user_id != user.id then
        (.mismatchRedirect, sessions1, st, [])
      else
        match queryReply with
        | .err e => (.queryFailedPage e, sessions1, st, [.alipayQuery])
        | .ok passed =>
          if !passed then (.notPassedPage, sessions1, st, [.alipayQuery])
          else
            match update_verify_status user.id session.real_name true st with
            | (.err e, st1) => (.updateFailedPage e, sessions1, st1, [.alipayQuery])
            | (.ok, st1) => (.successRedirect, sessions1, st1, [.alipayQuery])

/-! ## Dict lemmas -/

lemma Dict.get?_cons_of_eq {α : Type} (kv : String × α) (rest : Dict α)
    (k : String) (h : kv.1 = k) : Dict.get? (kv :: rest) k = some kv.2 := by
  simp [Dict.get?, List.find?_cons_of_pos, h]

lemma Dict.get?_cons_of_ne {α : Type} (kv : String × α) (rest : Dict α)
    (k : String) (h : kv.1 ≠ k) : Dict.get? (kv :: rest) k = Dict.get? rest k := by
  simp only [Dict.get?]
  rw [List.find?_cons_of_neg]
  simp [h]

lemma Dict.get?_set_self {α : Type} (d : Dict α) (k : String) (v : α) :
    (d.set k v).get? k = some v := by
  induction d with
  | nil => exact Dict.get?_cons_of_eq (k, v) [] k rfl
  | cons kv rest ih =>
    simp only [Dict.set]
    by_cases h : kv.1 = k
    · rw [if_pos (show (kv.1 == k) = true from beq_iff_eq.mpr h)]
      exact Dict.get?_cons_of_eq _ _ _ rfl
    · rw [if_neg (show ¬(kv.1 == k) = true from by simp [h])]
      rw [Dict.get?_cons_of_ne _ _ _ h]
      exact ih

lemma Dict.get?_eq_none_iff {α : Type} (d : Dict α) (k : String) :
    d.get? k = none ↔ ∀ kv ∈ d, kv.1 ≠ k := by
  simp [Dict.get?, List.find?_eq_none]

lemma Dict.set_eq_append {α : Type} (d : Dict α) (k : String) (v : α)
    (h : d.get? k = none) : d.set k v = d ++ [(k, v)] := by
  induction d with
  | nil => rfl
  | cons kv rest ih =>
    rw [Dict.get?_eq_none_iff] at h
    have hk : kv.1 ≠ k := h kv (by simp)
    have hrest : Dict.get? rest k = none :=
      (Dict.get?_eq_none_iff _ _).mpr (fun x hx => h x (by simp [hx]))
    simp only [Dict.set]
    rw [if_neg (show ¬(kv.1 == k) = true from by simp [hk]), List.cons_append,
      ih hrest]

lemma Dict.get?_append_left {α : Type} (d1 d2 : Dict α) (k : String) (v : α)
    (h : d1.get? k = some v) : (d1 ++ d2).get? k = some v := by
  induction d1 with
  | nil => simp [Dict.get?] at h
  | cons kv rest ih =>
    by_cases hk : kv.1 = k
    · rw [Dict.get?_cons_of_eq _ _ _ hk] at h
      rw [List.cons_append, Dict.get?_cons_of_eq _ _ _ hk]
      exact h
    · rw [Dict.get?_cons_of_ne _ _ _ hk] at h
      rw [List.cons_append, Dict.get?_cons_of_ne _ _ _ hk]
      exact ih h

lemma Dict.get?_append_right {α : Type} (d1 d2 : Dict α) (k : String)
    (h : d1.get? k = none) : (d1 ++ d2).get? k = d2.get? k := by
  induction d1 with
  | nil => simp
  | cons kv rest ih =>
    by_cases hk : kv.1 = k
    · rw [Dict.get?_cons_of_eq _ _ _ hk] at h
      exact absurd h (by simp)
    · rw [Dict.get?_cons_of_ne _ _ _ hk] at h
      rw [List.cons_append, Dict.get?_cons_of_ne _ _ _ hk]
      exact ih h

lemma Dict.erase_append_of_none {α : Type} (d1 d2 : Dict α) (k : String)
    (h : d1.get? k = none) : (d1 ++ d2).erase k = d1 ++ d2.erase k := by
  induction d1 with
  | nil => simp
  | cons kv rest ih =>
    by_cases hk : kv.1 = k
    · rw [Dict.get?_cons_of_eq _ _ _ hk] at h
      exact absurd h (by simp)
    · rw [Dict.get?_cons_of_ne _ _ _ hk] at h
      simp only [List.cons_append, Dict.erase, List.append_eq]
      rw [if_neg (show ¬(kv.1 == k) = true from by simp [hk]), ih h]

lemma Dict.erase_of_none {α : Type} (d : Dict α) (k : String)
    (h : d.get? k = none) : d.erase k = d := by
  have h2 := Dict.erase_append_of_none d [] k h
  simpa [Dict.erase] using h2

lemma Dict.erase_append_of_some {α : Type} (d1 d2 : Dict α) (k : String)
    (v : α) (h : d1.get? k = some v) :
    (d1 ++ d2).erase k = d1.erase k ++ d2 := by
  induction d1 with
  | nil => simp [Dict.get?] at h
  | cons kv rest ih =>
    by_cases hk : kv.1 = k
    · simp only [List.cons_append, Dict.erase]
      rw [if_pos (show (kv.1 == k) = true from beq_iff_eq.mpr hk),
        if_pos (show (kv.1 == k) = true from beq_iff_eq.mpr hk)]
      rfl
    · rw [Dict.get?_cons_of_ne _ _ _ hk] at h
      simp only [List.cons_append, Dict.erase, List.append_eq]
      rw [if_neg (show ¬(kv.1 == k) = true from by simp [hk]),
        if_neg (show ¬(kv.1 == k) = true from by simp [hk]), ih h,
        List.cons_append]

lemma Dict.values_append {α : Type} (d1 d2 : Dict α) :
    (d1 ++ d2).values = d1.values ++ d2.values := by
  simp [Dict.values]

/-- The initial empty state of the MOCK_* dictionaries relevant to the
identity flows (the seeded demo user plays no role in the claims and
general states are quantified; concrete witnesses start from here). -/
def emptyState : MockState :=
  { users := [], identities := [], identityIndex := [],
    agreements := [], solverProfiles := [], sessions := [] }

/-- After create_identity, find_by_provider for the same pair returns
exactly the identity just created. -/
lemma find_after_create (freshId now user_id provider provider_user_id : String)
    (pd : ProviderData) (st : MockState) :
    find_by_provider provider provider_user_id
        (create_identity freshId now user_id provider provider_user_id pd st).2 =
      some (create_identity freshId now user_id provider provider_user_id pd st).1 := by
  simp [find_by_provider, create_identity, Dict.get?_set_self]

/-- C1 (counterexample): the ledger's create operation itself performs no
duplicate check.  After create("acc-A", wechat, "X") succeeds, a second
create("acc-B", wechat, "X") also succeeds (create_identity has no
failure outcome at all, so no DuplicateBinding is possible), and find
then returns the binding owned by B — not the binding owned by A — while
A's row is still stored, so the (provider, subject) pair is claimed by
two stored bindings. -/
theorem c1_counterexample :
    ((create_identity "bind-2" "t1" "acc-B" "wechat" "X" {}
        (create_identity "bind-1" "t0" "acc-A" "wechat" "X" {} emptyState).2).1).user_id
      = "acc-B" ∧
    (find_by_provider "wechat" "X"
        (create_identity "bind-2" "t1" "acc-B" "wechat" "X" {}
          (create_identity "bind-1" "t0" "acc-A" "wechat" "X" {} emptyState).2).2).map
        Identity.user_id = some "acc-B" ∧
    Dict.get? (create_identity "bind-2" "t1" "acc-B" "wechat" "X" {}
        (create_identity "bind-1" "t0" "acc-A" "wechat" "X" {} emptyState).2).2.identities
        "bind-1"
      = some (create_identity "bind-1" "t0" "acc-A" "wechat" "X" {} emptyState).1 := by
  decide

/-- C1 (amended): uniqueness of (provider, provider_subject_id) is
enforced by the callers of create, not by create itself: after a
successful bind of account A to the wechat subject X, a second
bind_wechat_to_user for account B ≠ A fails with the "already bound to
another account" error, changes nothing, and find still returns the
binding owned by A. -/
theorem c1_binding_uniqueness_amended
    (st : MockState) (fidA fidB nowA nowB accA accB openid : String)
    (uA uB : Option String) (iA iB : WechatUserInfo)
    (hfree : find_by_provider "wechat" openid st = none)
    (hne : accB ≠ accA) :
    (bind_wechat_to_user fidA nowA accA openid uA iA st).1 = BindResult.ok ∧
    (find_by_provider "wechat" openid
        (bind_wechat_to_user fidA nowA accA openid uA iA st).2).map
        Identity.user_id = some accA ∧
    bind_wechat_to_user fidB nowB accB openid uB iB
        (bind_wechat_to_user fidA nowA accA openid uA iA st).2
      = (BindResult.err "该微信账号已被其他账户绑定",
         (bind_wechat_to_user fidA nowA accA openid uA iA st).2) := by
  have h1 : bind_wechat_to_user fidA nowA accA openid uA iA st =
      (BindResult.ok, (create_identity fidA nowA accA "wechat" openid
        { unionid := uA, nickname := iA.nickname,
          avatar_url := iA.headimgurl, sex := iA.sex } st).2) := by
    unfold bind_wechat_to_user
    rw [hfree]
  refine ⟨by rw [h1], ?_, ?_⟩
  · rw [h1]
    show (find_by_provider "wechat" openid
      (create_identity fidA nowA accA "wechat" openid _ st).2).map
        Identity.user_id = some accA
    rw [find_after_create]
    rfl
  · rw [h1]
    show bind_wechat_to_user fidB nowB accB openid uB iB
        (create_identity fidA nowA accA "wechat" openid _ st).2 = _
    unfold bind_wechat_to_user
    rw [find_after_create]
    simp [create_identity, Ne.symm hne]

/-- C1 witness: the amended theorem at concrete inputs. -/
theorem c1_witness :
    bind_wechat_to_user "bind-B" "t1" "acc-B" "OPENID" none {}
        (bind_wechat_to_user "bind-A" "t0" "acc-A" "OPENID" none {} emptyState).2
      = (BindResult.err "该微信账号已被其他账户绑定",
         (bind_wechat_to_user "bind-A" "t0" "acc-A" "OPENID" none {} emptyState).2) :=
  (c1_binding_uniqueness_amended emptyState "bind-A" "bind-B" "t0" "t1" "acc-A"
    "acc-B" "OPENID" none none {} {} (by decide) (by decide)).2.2

/-- A concrete user record for witnesses (mirrors the seeded demo user). -/
def demoUser : UserRec :=
  { id := "demo-user-1", email := some "demo@example.com",
    nickname := "演示用户", user_role := "both", avatar_url := none,
    real_name := some "张三", id_card_verified := true,
    password_hash := none, terms_agreed_at := none, created_at := "t0" }

/-- C2: correlation entries are consumed at most once.  For the WeChat
callback: whatever the replies of the two network calls are, the
returned OAUTH_STATES is the input with the presented state token
removed (the pop happens before, and independently of, any network
call), and a callback presenting a token that is no longer stored yields
the expired-state error page with an empty network trace and an
unchanged mock state.  The same two facts hold for the Alipay
verification callback and its certify handle. -/
theorem c2_correlation_consumed_once
    (c s cid : String) (hc : c ≠ "") (hs : s ≠ "") (hcid : cid ≠ "")
    (oauth : Dict StateData) (sessions : Dict VerifySession)
    (user : UserRec) (fresh : Fresh) (st : MockState) :
    (∀ exch prof,
      (wechat_callback (some c) (some s) none oauth exch prof fresh st).2.1
        = oauth.erase s) ∧
    (oauth.get? s = none → ∀ exch prof,
      wechat_callback (some c) (some s) none oauth exch prof fresh st
        = (.errorPage "微信登录" "授权已过期，请重试", oauth.erase s, st, [])) ∧
    (∀ q, (verify_callback (some cid) user sessions q st).2.1
        = sessions.erase cid) ∧
    (sessions.get? cid = none → ∀ q,
      verify_callback (some cid) user sessions q st
        = (.expiredRedirect, sessions.erase cid, st, [])) := by
  have hc' : ((c == "") : Bool) = false := beq_eq_false_iff_ne.mpr hc
  have hs' : ((s == "") : Bool) = false := beq_eq_false_iff_ne.mpr hs
  have hcid' : ((cid == "") : Bool) = false := beq_eq_false_iff_ne.mpr hcid
  refine ⟨fun exch prof => ?_, fun hmiss exch prof => ?_, fun q => ?_,
    fun hmiss q => ?_⟩
  · unfold wechat_callback
    simp only [strFalsy, Bool.not_true, Bool.false_eq_true, if_false, hc', hs',
      Bool.or_false, Dict.pop, Option.getD_some]
    cases hg : Dict.get? oauth s with
    | none => rfl
    | some sd =>
      cases exch with
      | err m => rfl
      | ok a o u =>
        unfold wechat_callback_consumed
        repeat' split
        all_goals rfl
  · unfold wechat_callback
    simp only [strFalsy, Bool.not_true, Bool.false_eq_true, if_false, hc', hs',
      Bool.or_false, Dict.pop, Option.getD_some]
    rw [hmiss]
    rfl
  · unfold verify_callback
    simp only [strFalsy, hcid', Bool.false_eq_true, if_false, Dict.pop,
      Option.getD_some]
    cases hg : Dict.get? sessions cid with
    | none => rfl
    | some session =>
      repeat' split
      all_goals simp_all
  · unfold verify_callback
    simp only [strFalsy, hcid', Bool.false_eq_true, if_false, Dict.pop,
      Option.getD_some]
    rw [hmiss]

/-- C2 witness: replaying an unknown token / certify handle at concrete
inputs yields the expired outcomes with no network call. -/
theorem c2_witness :
    wechat_callback (some "CODE") (some "S1") none ([] : Dict StateData)
        (.err "x") (.err "y") ⟨"u1", "i1", "p1", "t1"⟩ emptyState
      = (.errorPage "微信登录" "授权已过期，请重试", [], emptyState, []) ∧
    verify_callback (some "CERT1") demoUser ([] : Dict VerifySession)
        (.err "z") emptyState
      = (.expiredRedirect, [], emptyState, []) := by
  have h := c2_correlation_consumed_once "CODE" "S1" "CERT1" (by decide)
    (by decide) (by decide) [] [] demoUser ⟨"u1", "i1", "p1", "t1"⟩ emptyState
  exact ⟨h.2.1 rfl (.err "x") (.err "y"), h.2.2.2 rfl (.err "z")⟩

/-- Claim C3 as stated (spec §4.5): in the bind branch, the orchestrator
verifies that the correlation entry's initiating account id matches the
currently authenticated caller, and when they differ the outcome is
Failed with no binding created.  The handler takes no notion of the
authenticated caller (the route has no user dependency), so the claim is
stated over every possible caller. -/
def bind_branch_verifies_caller : Prop :=
  ∀ (caller c s : String) (oauth : Dict StateData) (sd : StateData)
    (a at_ openid : String) (unionid : Option String) (prof : ProfileReply)
    (fresh : Fresh) (st : MockState),
    oauth.get? s = some sd → sd.action = "bind" → sd.user_id = some a →
    a ≠ caller →
    (∃ t e, (wechat_callback (some c) (some s) none oauth
        (.ok at_ openid unionid) prof fresh st).1
          = CallbackPage.errorPage t e) ∧
    (wechat_callback (some c) (some s) none oauth (.ok at_ openid unionid)
        prof fresh st).2.2.1.identities = st.identities

/-- C3 (counterexample): with a stored bind entry for account "user-A"
and an authenticated caller "user-B", the callback does not fail — it
creates the binding for "user-A" and redirects with bind_success. -/
theorem c3_counterexample : ¬ bind_branch_verifies_caller := by
  intro h
  obtain ⟨⟨t, e, hpage⟩, _⟩ := h "user-B" "CODE" "S1"
    [("S1", ⟨"bind", none, some "user-A", "t0"⟩)]
    ⟨"bind", none, some "user-A", "t0"⟩
    "user-A" "AT" "OPENID" none (.ok {}) ⟨"u1", "i1", "p1", "t1"⟩ emptyState
    (by decide) rfl rfl (by decide)
  have heval : (wechat_callback (some "CODE") (some "S1") none
      [("S1", ⟨"bind", none, some "user-A", "t0"⟩)] (.ok "AT" "OPENID" none)
      (.ok {}) ⟨"u1", "i1", "p1", "t1"⟩ emptyState).1
        = CallbackPage.profileBindRedirect := by decide
  rw [heval] at hpage
  exact CallbackPage.noConfusion hpage

lemma wechat_callback_bind_reduction
    (c s a at_ openid : String) (unionid : Option String)
    (oauth : Dict StateData) (sd : StateData) (prof : ProfileReply)
    (fresh : Fresh) (st : MockState)
    (hc : c ≠ "") (hs : s ≠ "") (hsd : oauth.get? s = some sd)
    (hact : sd.action = "bind") (hui : sd.user_id = some a) (ha : a ≠ "") :
    wechat_callback (some c) (some s) none oauth (.ok at_ openid unionid)
        prof fresh st =
      match bind_wechat_to_user fresh.identityId fresh.now a openid unionid
          (profile_or_default prof) st with
      | (.err msg, st1) =>
        (.errorPage "绑定失败" msg, oauth.erase s, st1,
         [.wxAccessToken, .wxUserInfo])
      | (.ok, st1) =>
        (.profileBindRedirect, oauth.erase s, st1,
         [.wxAccessToken, .wxUserInfo]) := by
  unfold wechat_callback
  simp only [strFalsy, Bool.not_true, Bool.false_eq_true, if_false,
    beq_eq_false_iff_ne.mpr hc, beq_eq_false_iff_ne.mpr hs, Bool.or_false,
    Dict.pop, Option.getD_some, hsd]
  simp only [wechat_callback_consumed, hact, hui, strFalsy, beq_self_eq_true,
    if_true, beq_eq_false_iff_ne.mpr ha, Bool.false_eq_true, if_false,
    Option.getD_some]

/-- C3 (amended): the bind branch does not consult the authenticated
caller at all — the bind target is the correlation entry's stored
initiating account id.  When the wechat subject is unclaimed, the
binding is created for that stored account and the outcome is the
bind-success redirect; when the subject is already claimed by a
different account, the outcome is the already-bound error page with the
ledger unchanged. -/
theorem c3_bind_target_is_stored_account
    (c s a at_ openid : String) (unionid : Option String)
    (oauth : Dict StateData) (sd : StateData) (prof : ProfileReply)
    (fresh : Fresh) (st : MockState)
    (hc : c ≠ "") (hs : s ≠ "") (hsd : oauth.get? s = some sd)
    (hact : sd.action = "bind") (hui : sd.user_id = some a) (ha : a ≠ "") :
    (find_by_provider "wechat" openid st = none →
      (wechat_callback (some c) (some s) none oauth (.ok at_ openid unionid)
          prof fresh st).1 = CallbackPage.profileBindRedirect ∧
      (find_by_provider "wechat" openid
          (wechat_callback (some c) (some s) none oauth
            (.ok at_ openid unionid) prof fresh st).2.2.1).map
          Identity.user_id = some a) ∧
    (∀ ex, find_by_provider "wechat" openid st = some ex → ex.user_id ≠ a →
      (wechat_callback (some c) (some s) none oauth (.ok at_ openid unionid)
          prof fresh st).1
        = CallbackPage.errorPage "绑定失败" "该微信账号已被其他账户绑定" ∧
      (wechat_callback (some c) (some s) none oauth (.ok at_ openid unionid)
          prof fresh st).2.2.1 = st) := by
  rw [wechat_callback_bind_reduction c s a at_ openid unionid oauth sd prof
    fresh st hc hs hsd hact hui ha]
  constructor
  · intro hfree
    have hb : bind_wechat_to_user fresh.identityId fresh.now a openid unionid
        (profile_or_default prof) st =
      (BindResult.ok, (create_identity fresh.identityId fresh.now a "wechat"
        openid
        { unionid := unionid, nickname := (profile_or_default prof).nickname,
          avatar_url := (profile_or_default prof).headimgurl,
          sex := (profile_or_default prof).sex } st).2) := by
      unfold bind_wechat_to_user
      rw [hfree]
    rw [hb]
    refine ⟨rfl, ?_⟩
    show (find_by_provider "wechat" openid
      (create_identity fresh.identityId fresh.now a "wechat" openid _ st).2).map
        Identity.user_id = some a
    rw [find_after_create]
    rfl
  · intro ex hex hne
    have hb : bind_wechat_to_user fresh.identityId fresh.now a openid unionid
        (profile_or_default prof) st =
      (BindResult.err "该微信账号已被其他账户绑定", st) := by
      unfold bind_wechat_to_user
      rw [hex]
      simp [beq_eq_false_iff_ne.mpr hne]
    rw [hb]
    exact ⟨rfl, rfl⟩

/-- C3 witness: the amended theorem at concrete inputs. -/
theorem c3_witness :
    (wechat_callback (some "CODE") (some "S1") none
        [("S1", ⟨"bind", none, some "user-A", "t0"⟩)] (.ok "AT" "OPENID" none)
        (.ok {}) ⟨"u1", "i1", "p1", "t1"⟩ emptyState).1
      = CallbackPage.profileBindRedirect :=
  ((c3_bind_target_is_stored_account "CODE" "S1" "user-A" "AT" "OPENID" none
    [("S1", ⟨"bind", none, some "user-A", "t0"⟩)]
    ⟨"bind", none, some "user-A", "t0"⟩ (.ok {}) ⟨"u1", "i1", "p1", "t1"⟩
    emptyState (by decide) (by decide) (by decide) rfl rfl
    (by decide)).1 (by decide)).1

/-- C7: submit_verify rejects before any network call whenever the id
number fails format validation or the legal name is shorter than 2
characters: the outcome is one of the two validation-error pages, the
verify-session store and the mock state are unchanged, and the network
trace is empty — for every configuration value, so validation failure
takes precedence over the unconfigured-provider auto-approve path. -/
theorem c7_validation_before_network
    (real_name id_card : String) (user : UserRec) (alipayConfigured : Bool)
    (suffix : String) (initReply : InitReply) (vs : Dict VerifySession)
    (st : MockState)
    (h : validate_id_card id_card = false ∨ real_name.length < 2) :
    ((submit_verify real_name id_card user alipayConfigured suffix initReply
        vs st).1 = SubmitOutcome.idCardFormatError ∨
     (submit_verify real_name id_card user alipayConfigured suffix initReply
        vs st).1 = SubmitOutcome.nameError) ∧
    (submit_verify real_name id_card user alipayConfigured suffix initReply
        vs st).2.1 = vs ∧
    (submit_verify real_name id_card user alipayConfigured suffix initReply
        vs st).2.2.1 = st ∧
    (submit_verify real_name id_card user alipayConfigured suffix initReply
        vs st).2.2.2 = [] := by
  unfold submit_verify
  cases hval : validate_id_card id_card with
  | false => simp [hval]
  | true =>
    have hlen : real_name.length < 2 := by
      rcases h with h1 | h2
      · rw [hval] at h1
        cases h1
      · exact h2
    have hcond : (real_name == "" || decide (real_name.length < 2)) = true := by
      simp [hlen]
    simp [hval, hcond]

/-- C7 witness: a length-1 legal name with a well-formed id number is
rejected with no network call. -/
theorem c7_witness :
    ((submit_verify "A" "110101199003072316" demoUser true "ord1"
        (.ok "CERT1") [] emptyState).1 = SubmitOutcome.idCardFormatError ∨
     (submit_verify "A" "110101199003072316" demoUser true "ord1"
        (.ok "CERT1") [] emptyState).1 = SubmitOutcome.nameError) ∧
    (submit_verify "A" "110101199003072316" demoUser true "ord1"
        (.ok "CERT1") [] emptyState).2.2.2 = [] :=
  have h := c7_validation_before_network "A" "110101199003072316" demoUser
    true "ord1" (.ok "CERT1") [] emptyState (Or.inr (by decide))
  ⟨h.1, h.2.2.2⟩

/-- C10: a failed profile fetch after a successful code exchange does
not fail the flow — the callback behaves exactly as if the fetch had
returned the default profile with nickname "微信用户", and every branch
proceeds with the subject id from the code exchange. -/
theorem c10_profile_fetch_fallback
    (code state error : Option String) (oauth : Dict StateData)
    (at_ openid : String) (unionid : Option String) (m : String)
    (fresh : Fresh) (st : MockState) :
    wechat_callback code state error oauth (.ok at_ openid unionid) (.err m)
        fresh st
      = wechat_callback code state error oauth (.ok at_ openid unionid)
        (.ok { nickname := some "微信用户" }) fresh st := rfl

lemma wechat_callback_register_reduction
    (c s at_ openid r : String) (unionid : Option String)
    (oauth : Dict StateData) (sd : StateData) (prof : ProfileReply)
    (fresh : Fresh) (st : MockState)
    (hc : c ≠ "") (hs : s ≠ "") (hsd : oauth.get? s = some sd)
    (hact : sd.action = "register") (hrole : sd.user_role = some r)
    (hr : r ≠ "") :
    wechat_callback (some c) (some s) none oauth (.ok at_ openid unionid)
        prof fresh st =
      match sign_up_with_wechat fresh.userId fresh.identityId fresh.profileId
          fresh.now openid unionid (profile_or_default prof) r fresh.now st with
      | (.ok session_data, st1) =>
        (.homeRedirect session_data.access_token session_data.refresh_token,
         oauth.erase s, st1, [.wxAccessToken, .wxUserInfo])
      | (.err msg, st1) =>
        if strIn "已注册" msg then
          match sign_in_with_wechat openid st1 with
          | (.ok session_data, st2) =>
            (.homeRedirect session_data.access_token
              session_data.refresh_token, oauth.erase s, st2,
             [.wxAccessToken, .wxUserInfo])
          | (.err msg2, st2) =>
            (.errorPage "微信注册" msg2, oauth.erase s, st2,
             [.wxAccessToken, .wxUserInfo])
        else
          (.errorPage "微信注册" msg, oauth.erase s, st1,
           [.wxAccessToken, .wxUserInfo]) := by
  have hbind : (("register" : String) == "bind") = false := by decide
  unfold wechat_callback
  simp only [strFalsy, Bool.not_true, Bool.false_eq_true, if_false,
    beq_eq_false_iff_ne.mpr hc, beq_eq_false_iff_ne.mpr hs, Bool.or_false,
    Dict.pop, Option.getD_some, hsd]
  simp only [wechat_callback_consumed, hact, hrole, hbind, Bool.false_eq_true,
    if_false, beq_self_eq_true, if_true, strFalsy,
    beq_eq_false_iff_ne.mpr hr, Option.getD_some]

/-- C9: registration via social login is idempotent under double
submission.  If the subject id is already bound in the ledger and the
bound account exists, a register-purpose callback does not error and
creates no second account, binding or profile: the whole mock state is
unchanged except for the issued session, and the outcome is the login
redirect carrying a session for the already-bound account. -/
theorem c9_register_idempotent
    (c s at_ openid r : String) (unionid : Option String)
    (oauth : Dict StateData) (sd : StateData) (prof : ProfileReply)
    (fresh : Fresh) (st : MockState) (identity : Identity) (user : UserRec)
    (hc : c ≠ "") (hs : s ≠ "") (hsd : oauth.get? s = some sd)
    (hact : sd.action = "register") (hrole : sd.user_role = some r)
    (hr : r ≠ "")
    (hfound : find_by_provider "wechat" openid st = some identity)
    (huser : st.users.get? identity.user_id = some user) :
    wechat_callback (some c) (some s) none oauth (.ok at_ openid unionid)
        prof fresh st
      = (.homeRedirect ("wechat-token-" ++ identity.user_id)
           ("refresh-" ++ ("wechat-token-" ++ identity.user_id)),
         oauth.erase s,
         { st with sessions := (st.sessions.set
             ("wechat-token-" ++ identity.user_id) identity.user_id) },
         [.wxAccessToken, .wxUserInfo]) := by
  rw [wechat_callback_register_reduction c s at_ openid r unionid oauth sd
    prof fresh st hc hs hsd hact hrole hr]
  have hsu : sign_up_with_wechat fresh.userId fresh.identityId fresh.profileId
      fresh.now openid unionid (profile_or_default prof) r fresh.now st
        = (.err "该微信账号已注册，请直接登录", st) := by
    unfold sign_up_with_wechat
    rw [hfound]
  have hsi : sign_in_with_wechat openid st
      = (.ok { access_token := "wechat-token-" ++ identity.user_id,
               refresh_token := "refresh-" ++ ("wechat-token-" ++ identity.user_id),
               user_id := identity.user_id, nickname := some user.nickname,
               is_new_user := false },
         { st with sessions := (st.sessions.set
             ("wechat-token-" ++ identity.user_id) identity.user_id) }) := by
    simp only [sign_in_with_wechat, hfound, huser]
  rw [hsu]
  show (if strIn "已注册" "该微信账号已注册，请直接登录" = true then
      match sign_in_with_wechat openid st with
      | (.ok session_data, st2) =>
        (CallbackPage.homeRedirect session_data.access_token
          session_data.refresh_token, oauth.erase s, st2,
         [NetCall.wxAccessToken, NetCall.wxUserInfo])
      | (.err msg2, st2) =>
        (CallbackPage.errorPage "微信注册" msg2, oauth.erase s, st2,
         [NetCall.wxAccessToken, NetCall.wxUserInfo])
    else
      (CallbackPage.errorPage "微信注册" "该微信账号已注册，请直接登录",
       oauth.erase s, st, [NetCall.wxAccessToken, NetCall.wxUserInfo])) = _
  rw [if_pos (show strIn "已注册" "该微信账号已注册，请直接登录" = true by decide)]
  rw [hsi]

/-- An already-bound identity for the C9 witness. -/
def c9Identity : Identity :=
  { id := "i1", user_id := "u1", provider := "wechat",
    provider_user_id := "OPENID", provider_data := {},
    created_at := "t0", updated_at := "t0" }

/-- The already-registered account for the C9 witness. -/
def c9User : UserRec := { demoUser with id := "u1" }

/-- A state with one account bound to (wechat, OPENID). -/
def c9State : MockState :=
  { users := [("u1", c9User)], identities := [("i1", c9Identity)],
    identityIndex := [("wechat:OPENID", "i1")], agreements := [],
    solverProfiles := [], sessions := [] }

/-- C9 witness: the theorem at a concrete bound state. -/
theorem c9_witness :
    wechat_callback (some "CODE") (some "S1") none
        [("S1", ⟨"register", some "asker", none, "t0"⟩)]
        (.ok "AT" "OPENID" none) (.err "p") ⟨"u2", "i2", "p2", "t2"⟩ c9State
      = (.homeRedirect "wechat-token-u1" "refresh-wechat-token-u1", [],
         { c9State with sessions := [("wechat-token-u1", "u1")] },
         [.wxAccessToken, .wxUserInfo]) := by
  have h := c9_register_idempotent "CODE" "S1" "AT" "OPENID" "asker" none
    [("S1", ⟨"register", some "asker", none, "t0"⟩)]
    ⟨"register", some "asker", none, "t0"⟩ (.err "p") ⟨"u2", "i2", "p2", "t2"⟩
    c9State c9Identity c9User (by decide) (by decide) rfl rfl rfl (by decide)
    (by decide) (by decide)
  exact h

lemma index_key_wechat_ne_email (openid email : String) :
    identity_index_key "wechat" openid ≠ identity_index_key "email" email := by
  intro h
  have h2 : ("wechat" ++ ":" ++ openid).data = ("email" ++ ":" ++ email).data :=
    congrArg String.data h
  rw [String.data_append, String.data_append, String.data_append,
    String.data_append,
    show ("wechat" : String).data = ['w', 'e', 'c', 'h', 'a', 't'] from rfl,
    show ("email" : String).data = ['e', 'm', 'a', 'i', 'l'] from rfl,
    show (":" : String).data = [':'] from rfl] at h2
  simp at h2

lemma c8_signup_eq
    (st0 : MockState) (openid fuid fiid fpid now role terms : String)
    (unionid : Option String) (info : WechatUserInfo)
    (hfind0 : find_by_provider "wechat" openid st0 = none) :
    sign_up_with_wechat fuid fiid fpid now openid unionid info role terms st0
      = (.ok ⟨"wechat-token-" ++ fuid, "refresh-" ++ ("wechat-token-" ++ fuid),
           fuid, some (info.nickname.getD "微信用户"), true⟩,
         { users := st0.users.set fuid
             ⟨fuid, none, info.nickname.getD "微信用户", role, info.headimgurl,
              none, false, none, some terms, now⟩,
           identities := st0.identities.set fiid
             ⟨fiid, fuid, "wechat", openid,
              ⟨unionid, some (info.nickname.getD "微信用户"), info.headimgurl,
               info.sex⟩, now, now⟩,
           identityIndex := st0.identityIndex.set
             (identity_index_key "wechat" openid) fiid,
           agreements := st0.agreements.set fuid ⟨fuid, none, terms, "1.0"⟩,
           solverProfiles := if role == "solver" then
               st0.solverProfiles.set fuid ⟨fpid, fuid⟩
             else st0.solverProfiles,
           sessions := st0.sessions.set ("wechat-token-" ++ fuid) fuid }) := by
  simp only [sign_up_with_wechat, hfind0, create_identity]
  by_cases hc : (role == "solver") = true <;> simp [hc]

lemma c8_bind_email_eq
    (st : MockState) (u u0 : UserRec) (email password feid now2 : String)
    (hashFn : String → String)
    (h_pw : 6 ≤ password.length)
    (h_any : st.users.values.any
      (fun x => x.email == some email && x.id != u.id) = false)
    (h_get : st.users.get? u.id = some u0) :
    bind_email feid now2 hashFn u email password password st
      = (.bindSuccess,
         { users := st.users.set u.id
             { u0 with email := some email,
                       password_hash := some (hashFn password) },
           identities := st.identities.set feid
             ⟨feid, u.id, "email", email, ⟨none, none, none, none⟩, now2, now2⟩,
           identityIndex := st.identityIndex.set
             (identity_index_key "email" email) feid,
           agreements := st.agreements,
           solverProfiles := st.solverProfiles,
           sessions := st.sessions }) := by
  have hlen : ¬ password.length < 6 := Nat.not_lt.mpr h_pw
  simp only [bind_email, bne_self_eq_false, Bool.false_eq_true, if_false,
    h_any, h_get, create_identity]
  rw [if_neg hlen]

/-- C8: unbinding the social login requires an email/password fallback.
Starting from a clean state, register an account through WeChat (its
only binding is the wechat one and its email field is empty): the unbind
endpoint fails with need_email_first and changes nothing.  After
bind_email succeeds for that account, the same unbind call succeeds,
the (wechat, openid) binding is gone, and the email binding — the
primary-authentication fallback — is still owned by the account. -/
theorem c8_unbind_requires_email_fallback
    (st0 : MockState) (openid fuid fiid fpid now role terms : String)
    (unionid : Option String) (info : WechatUserInfo)
    (email password feid now2 : String) (hashFn : String → String)
    (h_idx_wx : st0.identityIndex.get?
      (identity_index_key "wechat" openid) = none)
    (h_idx_em : st0.identityIndex.get?
      (identity_index_key "email" email) = none)
    (h_ids_fiid : st0.identities.get? fiid = none)
    (h_ids_feid : st0.identities.get? feid = none)
    (h_ne : fiid ≠ feid)
    (h_users_fuid : st0.users.get? fuid = none)
    (h_no_ident : ∀ kv ∈ st0.identities, kv.2.user_id ≠ fuid)
    (h_email_free : ∀ kv ∈ st0.users, kv.2.email ≠ some email)
    (h_email_ne : email ≠ "")
    (h_pw : 6 ≤ password.length) :
    ∀ u, (sign_up_with_wechat fuid fiid fpid now openid unionid info role
        terms st0).2.users.get? fuid = some u →
      u.email = none ∧
      unbind_wechat u (sign_up_with_wechat fuid fiid fpid now openid unionid
          info role terms st0).2
        = (ProfileRedirect.needEmailFirst,
           (sign_up_with_wechat fuid fiid fpid now openid unionid info role
             terms st0).2) ∧
      (bind_email feid now2 hashFn u email password password
        (sign_up_with_wechat fuid fiid fpid now openid unionid info role
          terms st0).2).1 = ProfileRedirect.bindSuccess ∧
      ∀ u2, (bind_email feid now2 hashFn u email password password
          (sign_up_with_wechat fuid fiid fpid now openid unionid info role
            terms st0).2).2.users.get? fuid = some u2 →
        u2.email = some email ∧
        (unbind_wechat u2 (bind_email feid now2 hashFn u email password
            password (sign_up_with_wechat fuid fiid fpid now openid unionid
              info role terms st0).2).2).1 = ProfileRedirect.unbindSuccess ∧
        find_by_provider "wechat" openid
          (unbind_wechat u2 (bind_email feid now2 hashFn u email password
            password (sign_up_with_wechat fuid fiid fpid now openid unionid
              info role terms st0).2).2).2 = none ∧
        (find_by_provider "email" email
          (unbind_wechat u2 (bind_email feid now2 hashFn u email password
            password (sign_up_with_wechat fuid fiid fpid now openid unionid
              info role terms st0).2).2).2).map Identity.user_id
          = some fuid := by
  have hfind0 : find_by_provider "wechat" openid st0 = none := by
    unfold find_by_provider
    rw [h_idx_wx]
  have hsu := c8_signup_eq st0 openid fuid fiid fpid now role terms unionid
    info hfind0
  intro u hget
  rw [hsu] at hget
  dsimp only at hget
  rw [Dict.get?_set_self] at hget
  have hu : u = ⟨fuid, none, info.nickname.getD "微信用户", role,
      info.headimgurl, none, false, none, some terms, now⟩ :=
    (Option.some.inj hget).symm
  subst hu
  rw [hsu]
  dsimp only
  have h_get' : (st0.users.set fuid
      ⟨fuid, none, info.nickname.getD "微信用户", role, info.headimgurl, none,
        false, none, some terms, now⟩).get? fuid
      = some ⟨fuid, none, info.nickname.getD "微信用户", role, info.headimgurl,
          none, false, none, some terms, now⟩ :=
    Dict.get?_set_self _ _ _
  have h_any' : (st0.users.set fuid
      ⟨fuid, none, info.nickname.getD "微信用户", role, info.headimgurl, none,
        false, none, some terms, now⟩).values.any
      (fun x => x.email == some email && x.id != fuid) = false := by
    rw [Dict.set_eq_append _ _ _ h_users_fuid, Dict.values_append,
      List.any_append]
    have h1 : st0.users.values.any
        (fun x => x.email == some email && x.id != fuid) = false := by
      rw [List.any_eq_false]
      intro x hx
      obtain ⟨kv, hkv, rfl⟩ := List.mem_map.mp hx
      simp [beq_eq_false_iff_ne.mpr (h_email_free kv hkv)]
    rw [h1]
    rfl
  have hbind := c8_bind_email_eq
    { users := st0.users.set fuid
        ⟨fuid, none, info.nickname.getD "微信用户", role, info.headimgurl,
          none, false, none, some terms, now⟩,
      identities := st0.identities.set fiid
        ⟨fiid, fuid, "wechat", openid,
          ⟨unionid, some (info.nickname.getD "微信用户"), info.headimgurl,
            info.sex⟩, now, now⟩,
      identityIndex := st0.identityIndex.set
        (identity_index_key "wechat" openid) fiid,
      agreements := st0.agreements.set fuid ⟨fuid, none, terms, "1.0"⟩,
      solverProfiles := if role == "solver" then
          st0.solverProfiles.set fuid ⟨fpid, fuid⟩
        else st0.solverProfiles,
      sessions := st0.sessions.set ("wechat-token-" ++ fuid) fuid }
    ⟨fuid, none, info.nickname.getD "微信用户", role, info.headimgurl,
      none, false, none, some terms, now⟩
    ⟨fuid, none, info.nickname.getD "微信用户", role, info.headimgurl,
      none, false, none, some terms, now⟩
    email password feid now2 hashFn h_pw h_any' h_get'
  refine ⟨rfl, rfl, by rw [hbind], ?_⟩
  intro u2 hget2
  rw [hbind] at hget2
  dsimp only at hget2
  rw [Dict.get?_set_self] at hget2
  have hu2 : u2 = ⟨fuid, some email, info.nickname.getD "微信用户", role,
      info.headimgurl, none, false, some (hashFn password), some terms,
      now⟩ := (Option.some.inj hget2).symm
  subst hu2
  rw [hbind]
  dsimp only
  set NU : UserRec := ⟨fuid, none, info.nickname.getD "微信用户", role,
    info.headimgurl, none, false, none, some terms, now⟩ with hNU
  set NU2 : UserRec := ⟨fuid, some email, info.nickname.getD "微信用户", role,
    info.headimgurl, none, false, some (hashFn password), some terms,
    now⟩ with hNU2
  set WX : Identity := ⟨fiid, fuid, "wechat", openid,
    ⟨unionid, some (info.nickname.getD "微信用户"), info.headimgurl,
      info.sex⟩, now, now⟩ with hWX
  set EM : Identity := ⟨feid, fuid, "email", email,
    ⟨none, none, none, none⟩, now2, now2⟩ with hEM
  have hids2 : (st0.identities.set fiid WX).set feid EM
      = (st0.identities ++ [(fiid, WX)]) ++ [(feid, EM)] := by
    rw [Dict.set_eq_append _ _ _ h_ids_fiid,
      Dict.set_eq_append _ _ _ (by
        rw [Dict.get?_append_right _ _ _ h_ids_feid]
        exact (Dict.get?_cons_of_ne (fiid, WX) [] feid h_ne).trans rfl)]
  have hidx2 : (st0.identityIndex.set (identity_index_key "wechat" openid)
        fiid).set (identity_index_key "email" email) feid
      = (st0.identityIndex ++ [(identity_index_key "wechat" openid, fiid)])
        ++ [(identity_index_key "email" email, feid)] := by
    rw [Dict.set_eq_append _ _ _ h_idx_wx,
      Dict.set_eq_append _ _ _ (by
        rw [Dict.get?_append_right _ _ _ h_idx_em]
        exact (Dict.get?_cons_of_ne (identity_index_key "wechat" openid, fiid)
          [] _ (index_key_wechat_ne_email openid email)).trans rfl)]
  have hpop_id : ((st0.identities ++ [(fiid, WX)]) ++ [(feid, EM)]).get? fiid
      = some WX :=
    Dict.get?_append_left _ _ _ _ (by
      rw [Dict.get?_append_right _ _ _ h_ids_fiid]
      exact Dict.get?_cons_of_eq (fiid, WX) [] fiid rfl)
  have her_id : ((st0.identities ++ [(fiid, WX)]) ++ [(feid, EM)]).erase fiid
      = st0.identities ++ [(feid, EM)] := by
    rw [Dict.erase_append_of_some _ _ _ WX (by
        rw [Dict.get?_append_right _ _ _ h_ids_fiid]
        exact Dict.get?_cons_of_eq (fiid, WX) [] fiid rfl),
      Dict.erase_append_of_none _ _ _ h_ids_fiid]
    simp [Dict.erase]
  have her_idx : ((st0.identityIndex ++
        [(identity_index_key "wechat" openid, fiid)]) ++
        [(identity_index_key "email" email, feid)]).erase
        (identity_index_key "wechat" openid)
      = st0.identityIndex ++ [(identity_index_key "email" email, feid)] := by
    rw [Dict.erase_append_of_some _ _ _ fiid (by
        rw [Dict.get?_append_right _ _ _ h_idx_wx]
        exact Dict.get?_cons_of_eq (identity_index_key "wechat" openid, fiid)
          [] _ rfl),
      Dict.erase_append_of_none _ _ _ h_idx_wx]
    simp [Dict.erase]
  have hfilter : (Dict.values ((st0.identities ++ [(fiid, WX)]) ++
        [(feid, EM)])).filter (fun i => i.user_id == fuid) = [WX, EM] := by
    rw [Dict.values_append, Dict.values_append, List.filter_append,
      List.filter_append]
    have h1 : st0.identities.values.filter (fun i => i.user_id == fuid)
        = [] := by
      rw [List.filter_eq_nil_iff]
      intro x hx
      obtain ⟨kv, hkv, rfl⟩ := List.mem_map.mp hx
      simp [h_no_ident kv hkv]
    rw [h1, hWX, hEM]
    simp [Dict.values]
  have hdel : delete_identity fiid
      { users := ((st0.users.set fuid NU).set fuid NU2),
        identities := ((st0.identities ++ [(fiid, WX)]) ++ [(feid, EM)]),
        identityIndex := ((st0.identityIndex.set
          (identity_index_key "wechat" openid) fiid).set
          (identity_index_key "email" email) feid),
        agreements := (st0.agreements.set fuid ⟨fuid, none, terms, "1.0"⟩),
        solverProfiles := (if role == "solver" then
            st0.solverProfiles.set fuid ⟨fpid, fuid⟩
          else st0.solverProfiles),
        sessions := (st0.sessions.set ("wechat-token-" ++ fuid) fuid) }
      = (true,
        { users := ((st0.users.set fuid NU).set fuid NU2),
          identities := (st0.identities ++ [(feid, EM)]),
          identityIndex := (st0.identityIndex ++
            [(identity_index_key "email" email, feid)]),
          agreements := (st0.agreements.set fuid ⟨fuid, none, terms, "1.0"⟩),
          solverProfiles := (if role == "solver" then
              st0.solverProfiles.set fuid ⟨fpid, fuid⟩
            else st0.solverProfiles),
          sessions := (st0.sessions.set ("wechat-token-" ++ fuid) fuid) }) := by
    unfold delete_identity
    simp only [Dict.pop]
    try dsimp only
    simp only [hpop_id]
    rw [her_id]
    try dsimp only
    rw [hidx2, her_idx]
  have hunb : unbind_wechat NU2
      { users := ((st0.users.set fuid NU).set fuid NU2),
        identities := ((st0.identities.set fiid WX).set feid EM),
        identityIndex := ((st0.identityIndex.set
          (identity_index_key "wechat" openid) fiid).set
          (identity_index_key "email" email) feid),
        agreements := (st0.agreements.set fuid ⟨fuid, none, terms, "1.0"⟩),
        solverProfiles := (if role == "solver" then
            st0.solverProfiles.set fuid ⟨fpid, fuid⟩
          else st0.solverProfiles),
        sessions := (st0.sessions.set ("wechat-token-" ++ fuid) fuid) }
      = (ProfileRedirect.unbindSuccess,
        { users := ((st0.users.set fuid NU).set fuid NU2),
          identities := (st0.identities ++ [(feid, EM)]),
          identityIndex := (st0.identityIndex ++
            [(identity_index_key "email" email, feid)]),
          agreements := (st0.agreements.set fuid ⟨fuid, none, terms, "1.0"⟩),
          solverProfiles := (if role == "solver" then
              st0.solverProfiles.set fuid ⟨fpid, fuid⟩
            else st0.solverProfiles),
          sessions := (st0.sessions.set ("wechat-token-" ++ fuid) fuid) }) := by
    unfold unbind_wechat
    rw [if_neg (show ¬ strFalsy NU2.email = true from by
      rw [hNU2]
      simp [strFalsy, h_email_ne])]
    unfold get_user_identities
    try dsimp only
    rw [hids2, hfilter]
    simp only [show List.find? (fun i => i.provider == "wechat") [WX, EM]
      = some (⟨fiid, fuid, "wechat", openid,
          ⟨unionid, some (info.nickname.getD "微信用户"), info.headimgurl,
            info.sex⟩, now, now⟩ : Identity) from by
        rw [hWX]
        rfl]
    try dsimp only
    rw [hdel]
  refine ⟨rfl, by rw [hunb], ?_, ?_⟩
  · rw [hunb]
    unfold find_by_provider
    try dsimp only
    rw [Dict.get?_append_right _ _ _ h_idx_wx,
      (Dict.get?_cons_of_ne (identity_index_key "email" email, feid) [] _
        (Ne.symm (index_key_wechat_ne_email openid email))).trans rfl]
    rfl
  · rw [hunb]
    unfold find_by_provider
    try dsimp only
    rw [Dict.get?_append_right _ _ _ h_idx_em,
      Dict.get?_cons_of_eq (identity_index_key "email" email, feid) [] _ rfl]
    show (Dict.get? (st0.identities ++ [(feid, EM)]) feid).map
      Identity.user_id = some fuid
    rw [Dict.get?_append_right _ _ _ h_ids_feid,
      Dict.get?_cons_of_eq (feid, EM) [] feid rfl]
    rfl

/-- C8 witness: the theorem at concrete inputs — the freshly registered
wechat-only account cannot unbind; after binding an email the same call
succeeds and the wechat binding is gone. -/
theorem c8_witness :
    unbind_wechat
        ⟨"u1", none, "微信用户", "asker", none, none, false, none, some "t0",
          "t0"⟩
        (sign_up_with_wechat "u1" "i1" "p1" "t0" "OPENID" none {} "asker" "t0"
          emptyState).2
      = (ProfileRedirect.needEmailFirst,
         (sign_up_with_wechat "u1" "i1" "p1" "t0" "OPENID" none {} "asker"
           "t0" emptyState).2) ∧
    (unbind_wechat
        ⟨"u1", some "user@example.com", "微信用户", "asker", none, none, false,
          some "HASH", some "t0", "t0"⟩
        (bind_email "i2" "t1" (fun _ => "HASH")
          ⟨"u1", none, "微信用户", "asker", none, none, false, none, some "t0",
            "t0"⟩
          "user@example.com" "secret1" "secret1"
          (sign_up_with_wechat "u1" "i1" "p1" "t0" "OPENID" none {} "asker"
            "t0" emptyState).2).2).1 = ProfileRedirect.unbindSuccess ∧
    find_by_provider "wechat" "OPENID"
      (unbind_wechat
        ⟨"u1", some "user@example.com", "微信用户", "asker", none, none, false,
          some "HASH", some "t0", "t0"⟩
        (bind_email "i2" "t1" (fun _ => "HASH")
          ⟨"u1", none, "微信用户", "asker", none, none, false, none, some "t0",
            "t0"⟩
          "user@example.com" "secret1" "secret1"
          (sign_up_with_wechat "u1" "i1" "p1" "t0" "OPENID" none {} "asker"
            "t0" emptyState).2).2).2 = none := by
  have h := c8_unbind_requires_email_fallback emptyState "OPENID" "u1" "i1"
    "p1" "t0" "asker" "t0" none {} "user@example.com" "secret1" "i2" "t1"
    (fun _ => "HASH") rfl rfl rfl rfl (by decide) rfl (by simp [emptyState])
    (by simp [emptyState]) (by decide) (by decide)
  have h1 := h ⟨"u1", none, "微信用户", "asker", none, none, false, none,
    some "t0", "t0"⟩ (by decide)
  have h2 := h1.2.2.2 ⟨"u1", some "user@example.com", "微信用户", "asker", none,
    none, false, some "HASH", some "t0", "t0"⟩ (by decide)
  exact ⟨h1.2.1, h2.2.1, h2.2.2.1⟩

end VibeAuth
